import Mathlib

/-!
# Network router of the API server: a shallow embedding

Model of `api/server/router/network/network_routes.go`.

The handlers are embedded from the point where the request has been decoded
(`ParseForm`, `CheckForJSON`, the JSON decoder and `filters.FromParam` are the
transport layer): a handler takes the decoded request and the state of the
directory it talks to (`n.daemon`), and yields what it hands back, the state
of the directory afterwards and the state-changing directory calls it made.

Go values that may be `nil` (interfaces, pointers, maps, slices compared with
`nil`) are `Option`s; a Go pair `(value, error)` is a Lean pair of `Option`s.
-/

namespace NetworkRouter

/-! ## Errors -/

/-- Go `error` values the handlers see or build. -/
inductive GoError where
  /-- Value `libnetwork.ErrNoSuchNetwork(name)`. -/
  | ErrNoSuchNetwork (name : String)
  /-- Value `libnetwork.NetworkNameError(name)`. -/
  | NetworkNameError (name : String)
  /-- Value built by `fmt.Errorf`, with its text. -/
  | errorString (text : String)
  /-- Value of any other error type, with the type's name and its text. -/
  | other (typeName : String) (text : String)
  deriving DecidableEq, Repr

/-- The type assertion `err.(libnetwork.ErrNoSuchNetwork)`. -/
def GoError.isErrNoSuchNetwork : GoError → Bool
  | .ErrNoSuchNetwork _ => true
  | _ => false

/-- Method `Error()`; the two libnetwork types format their name as libnetwork does. -/
def GoError.Error : GoError → String
  | .ErrNoSuchNetwork name => "network " ++ name ++ " not found"
  | .NetworkNameError name => "network with name " ++ name ++ " already exists"
  | .errorString text => text
  | .other _ text => text

/-! ## Objects of libnetwork, as the handlers read them -/

/-- Go `net.IPNet`: address bytes and mask bytes. -/
structure IPNet where
  IP : List Nat
  Mask : List Nat
  deriving DecidableEq, Repr

/-- Go `libnetwork.InterfaceInfo`: `MacAddress()` may be `nil`. -/
structure InterfaceInfo where
  MacAddress : Option (List Nat)
  Address : IPNet
  AddressIPv6 : IPNet
  deriving DecidableEq, Repr

/-- Go `libnetwork.Sandbox`, of which only `ContainerID()` is read. -/
structure Sandbox where
  ContainerID : String
  deriving DecidableEq, Repr

/-- Go `libnetwork.Endpoint`: `ID()`, `Info().Sandbox()` and `Info().Iface()`,
the latter two possibly `nil`. -/
structure Endpoint where
  ID : String
  Sandbox : Option Sandbox
  Iface : Option InterfaceInfo
  deriving DecidableEq, Repr

/-- Go `libnetwork.Network`: `Name()`, `ID()`, `Type()` (field `Type'`) and `Endpoints()`.
The endpoints listed by a network are live objects (none is `nil`). -/
structure Network where
  Name : String
  ID : String
  Type' : String
  Endpoints : List Endpoint
  deriving DecidableEq, Repr

/-- The two `String()` methods of package `net` that the endpoint builder
calls: `net.HardwareAddr.String` and `(*net.IPNet).String`. -/
structure NetFmt where
  hardwareAddrString : List Nat → String
  ipNetString : IPNet → String

/-! ## Wire types (`api/types`) -/

/-- Go `types.EndpointResource`. -/
structure EndpointResource where
  EndpointID : String := ""
  MacAddress : String := ""
  IPv4Address : String := ""
  IPv6Address : String := ""
  deriving DecidableEq, Repr

/-- Go `map[string]types.EndpointResource`, as a list of entries with
distinct keys in order of first insertion. -/
abbrev ContainerMap := List (String × EndpointResource)

/-- Go map assignment `m[k] = v`: overwrite the entry of `k`, or add one. -/
def mapSet : ContainerMap → String → EndpointResource → ContainerMap
  | [], k, v => [(k, v)]
  | (k', v') :: m, k, v => if k' = k then (k, v) :: m else (k', v') :: mapSet m k v

/-- Go `types.NetworkResource`; `Containers` is `none` for the `nil` map. -/
structure NetworkResource where
  Name : String := ""
  ID : String := ""
  Driver : String := ""
  Containers : Option ContainerMap := none
  deriving DecidableEq, Repr

/-- Mapping of option names to values carried by a create request. -/
abbrev Options := List (String × String)

/-- Go `types.NetworkCreate`, the decoded body of a create request. -/
structure NetworkCreate where
  Name : String
  Driver : String
  Options : Options
  CheckDuplicate : Bool
  deriving DecidableEq, Repr

/-- Go `types.NetworkCreateResponse`. -/
structure NetworkCreateResponse where
  ID : String
  Warning : String
  deriving DecidableEq, Repr

/-- Go `types.NetworkConnect`, the decoded body of a connect request. -/
structure NetworkConnect where
  Container : String
  deriving DecidableEq, Repr

/-- Go `types.NetworkDisconnect`, the decoded body of a disconnect request. -/
structure NetworkDisconnect where
  Container : String
  deriving DecidableEq, Repr

/-- Go `filters.Args`, the parsed filter map `map[string][]string`. -/
abbrev Args := List (String × List String)

/-- Constant `http.StatusOK`. -/
def StatusOK : Nat := 200

/-- Constant `http.StatusCreated`. -/
def StatusCreated : Nat := 201

/-! ## The directory behind the handlers (`n.daemon`) -/

/-- The calls the handlers make on `n.daemon` and on the objects it returns,
over a directory state `σ` and container objects `κ` (a `*daemon.Container`
is an `Option κ`). Lookups read the state; `CreateNetwork`, the container's
`ConnectToNetwork` and `DisconnectFromNetwork`, and the network's `Delete`
also yield the state afterwards. `GetNetwork` is the call with selector
`daemon.NetworkByName`. `formatContainer` is what `fmt` prints for a
`*daemon.Container` under the verb `%s`. -/
structure Daemon (σ κ : Type) where
  GetNetwork : σ → String → Option Network × Option GoError
  GetNetworksByID : σ → String → List (Option Network)
  FindNetwork : σ → String → Option Network × Option GoError
  CreateNetwork : σ → String → String → Options → (Option Network × Option GoError) × σ
  Get : σ → String → Option κ × Option GoError
  ConnectToNetwork : σ → Option κ → String → Option GoError × σ
  DisconnectFromNetwork : σ → Option κ → Option Network → Option GoError × σ
  Delete : σ → Network → Option GoError × σ
  formatContainer : Option κ → String

/-- State-changing directory call made by a handler, with its arguments. -/
inductive Effect (κ : Type) where
  | createNetwork (name driver : String) (options : Options)
  | connectToNetwork (container : Option κ) (networkName : String)
  | disconnectFromNetwork (container : Option κ) (network : Option Network)
  | delete (network : Network)
  deriving DecidableEq, Repr

/-- What a handler hands back: the body it passed to `httputils.WriteJSON`
with the status, or the `error` it returned (`none` is `nil`), or a nil
dereference. -/
inductive Result (α : Type) where
  | wroteJSON (status : Nat) (body : α)
  | returned (err : Option GoError)
  | nilPanic
  deriving DecidableEq, Repr

/-- Outcome of running a handler: its result, the directory state afterwards
and the state-changing calls it made, in order. -/
structure Run (σ κ α : Type) where
  result : Result α
  state : σ
  effects : List (Effect κ)

/-! ## Resource builders -/

/-- Function `buildEndpointResource`. -/
def buildEndpointResource (f : NetFmt) : Option Endpoint → EndpointResource
  | none => {}
  | some e =>
    match e.Iface with
    | none => { EndpointID := e.ID }
    | some iface =>
      { EndpointID := e.ID
        MacAddress :=
          match iface.MacAddress with
          | some mac => f.hardwareAddrString mac
          | none => ""
        IPv4Address :=
          if iface.Address.IP.length > 0 then f.ipNetString iface.Address else ""
        IPv6Address :=
          if iface.AddressIPv6.IP.length > 0 then f.ipNetString iface.AddressIPv6 else "" }

/-- Function `buildNetworkResource`: the loop over `nw.Endpoints()` is a left
fold over the map being filled. -/
def buildNetworkResource (f : NetFmt) : Option Network → NetworkResource
  | none => {}
  | some nw =>
    { Name := nw.Name
      ID := nw.ID
      Driver := nw.Type'
      Containers := some (nw.Endpoints.foldl
        (fun m e =>
          match e.Sandbox with
          | none => m
          | some sb => mapSet m sb.ContainerID (buildEndpointResource f (some e)))
        []) }

/-! ## Handlers -/

/-- Handler `getNetworksList`, from the parsed filter map on; each loop is a
left fold appending to `list`. -/
def getNetworksList {σ κ : Type} (f : NetFmt) (d : Daemon σ κ) (s : σ) (netFilters : Args) :
    Result (List NetworkResource) :=
  let list : List NetworkResource := []
  let list :=
    match netFilters.lookup "name" with
    | some names =>
      names.foldl
        (fun list name =>
          match d.GetNetwork s name with
          | (nw, none) => list ++ [buildNetworkResource f nw]
          | (_, some _) => list)
        list
    | none => list
  let list :=
    match netFilters.lookup "id" with
    | some ids =>
      ids.foldl
        (fun list id =>
          (d.GetNetworksByID s id).foldl (fun list nw => list ++ [buildNetworkResource f nw]) list)
        list
    | none => list
  let list :=
    if (netFilters.lookup "name").isNone && (netFilters.lookup "id").isNone then
      (d.GetNetworksByID s "").foldl (fun list nw => list ++ [buildNetworkResource f nw]) list
    else list
  .wroteJSON StatusOK list

/-- Handler `getNetwork`, with `id` the path variable `vars["id"]`. -/
def getNetwork {σ κ : Type} (f : NetFmt) (d : Daemon σ κ) (s : σ) (id : String) :
    Result NetworkResource :=
  match d.FindNetwork s id with
  | (_, some err) => .returned (some err)
  | (nw, none) => .wroteJSON StatusOK (buildNetworkResource f nw)

/-- Handler `postNetworkCreate`, from the decoded request on. -/
def postNetworkCreate {σ κ : Type} (d : Daemon σ κ) (s : σ) (create : NetworkCreate) :
    Run σ κ NetworkCreateResponse :=
  let nw := (d.GetNetwork s create.Name).1
  let err := (d.GetNetwork s create.Name).2
  if (match err with
      | some e => !e.isErrNoSuchNetwork
      | none => false) then
    { result := .returned err, state := s, effects := [] }
  else if nw.isSome && create.CheckDuplicate then
    { result := .returned (some (.NetworkNameError create.Name)), state := s, effects := [] }
  else
    let warning :=
      match nw with
      | some n => "Network with name " ++ n.Name ++ " (id : " ++ n.ID ++ ") already exists"
      | none => ""
    let call := Effect.createNetwork create.Name create.Driver create.Options
    match d.CreateNetwork s create.Name create.Driver create.Options with
    | ((_, some err), s') => { result := .returned (some err), state := s', effects := [call] }
    | ((none, none), s') => { result := .nilPanic, state := s', effects := [call] }
    | ((some nw, none), s') =>
      { result := .wroteJSON StatusCreated { ID := nw.ID, Warning := warning }
        state := s', effects := [call] }

/-- Handler `postNetworkConnect`, from the decoded request on, with `id` the
path variable `vars["id"]`. -/
def postNetworkConnect {σ κ : Type} (d : Daemon σ κ) (s : σ) (id : String)
    (connect : NetworkConnect) : Run σ κ Unit :=
  match d.FindNetwork s id with
  | (_, some err) => { result := .returned (some err), state := s, effects := [] }
  | (nw, none) =>
    match d.Get s connect.Container with
    | (container, some err) =>
      { result := .returned (some (.errorString
          ("invalid container " ++ d.formatContainer container ++ " : " ++ err.Error)))
        state := s, effects := [] }
    | (container, none) =>
      match nw with
      | none => { result := .nilPanic, state := s, effects := [] }
      | some n =>
        { result := .returned (d.ConnectToNetwork s container n.Name).1
          state := (d.ConnectToNetwork s container n.Name).2
          effects := [.connectToNetwork container n.Name] }

/-- Handler `postNetworkDisconnect`, from the decoded request on, with `id`
the path variable `vars["id"]`. -/
def postNetworkDisconnect {σ κ : Type} (d : Daemon σ κ) (s : σ) (id : String)
    (disconnect : NetworkDisconnect) : Run σ κ Unit :=
  match d.FindNetwork s id with
  | (_, some err) => { result := .returned (some err), state := s, effects := [] }
  | (nw, none) =>
    match d.Get s disconnect.Container with
    | (container, some err) =>
      { result := .returned (some (.errorString
          ("invalid container " ++ d.formatContainer container ++ " : " ++ err.Error)))
        state := s, effects := [] }
    | (container, none) =>
      { result := .returned (d.DisconnectFromNetwork s container nw).1
        state := (d.DisconnectFromNetwork s container nw).2
        effects := [.disconnectFromNetwork container nw] }

/-- Handler `deleteNetwork`, with `id` the path variable `vars["id"]`. -/
def deleteNetwork {σ κ : Type} (d : Daemon σ κ) (s : σ) (id : String) : Run σ κ Unit :=
  match d.FindNetwork s id with
  | (_, some err) => { result := .returned (some err), state := s, effects := [] }
  | (none, none) => { result := .nilPanic, state := s, effects := [] }
  | (some nw, none) =>
    { result := .returned (d.Delete s nw).1
      state := (d.Delete s nw).2
      effects := [.delete nw] }

/-- Text `t` occurs in text `s`. -/
def Contains (s t : String) : Prop := t.data <:+: s.data

instance instDecidableContains (s t : String) : Decidable (Contains s t) :=
  inferInstanceAs (Decidable (t.data <:+: s.data))

/-! ## What the spec says of the Network Directory -/

/-- Modelled from the spec: the Network Directory behind `n.daemon` (package
`daemon` and libnetwork, whose code is not among the sources), at state `s`
and for the create call `(name, driver, options)`. The known networks are
those of `GetNetworksByID s ""`. An exact-name lookup yields a known network
of that name; a successful create yields a network of the requested name
whose engine-assigned id no known network has, and afterwards the directory
knows it along with every network it knew. -/
structure DirectoryContractAt {σ κ : Type} (d : Daemon σ κ) (s : σ) (name driver : String)
    (options : Options) : Prop where
  lookup_exact : ∀ E e, d.GetNetwork s name = (some E, e) →
    E.Name = name ∧ some E ∈ d.GetNetworksByID s ""
  create_fresh : ∀ N s', d.CreateNetwork s name driver options = ((some N, none), s') →
    N.Name = name ∧ some N ∈ d.GetNetworksByID s' "" ∧
      ∀ M, some M ∈ d.GetNetworksByID s "" → M.ID ≠ N.ID ∧ some M ∈ d.GetNetworksByID s' ""

/-! ## Listing, as the spec words it -/

/-- Name resolution of the spec: each listed name is looked up by exact name,
in listed order; a lookup that succeeds contributes the built resource of its
network, a lookup that fails contributes nothing. -/
def nameMatches {σ κ : Type} (f : NetFmt) (d : Daemon σ κ) (s : σ) (names : List String) :
    List NetworkResource :=
  names.filterMap (fun name =>
    if (d.GetNetwork s name).2 = none then
      some (buildNetworkResource f (d.GetNetwork s name).1)
    else none)

/-- Id resolution of the spec: each listed id is resolved with
`GetNetworksByID`, in listed order, and every network it yields contributes
its built resource. -/
def idMatches {σ κ : Type} (f : NetFmt) (d : Daemon σ κ) (s : σ) (ids : List String) :
    List NetworkResource :=
  (ids.map (fun id => (d.GetNetworksByID s id).map (buildNetworkResource f))).flatten

/-! ## An in-memory directory

A small directory to run the handlers on: networks are kept in creation
order, containers are known by id, and attaching a container to a network
adds an endpoint with a sandbox of that container. -/

/-- State of the in-memory directory. -/
structure MemState where
  networks : List Network
  containers : List String
  deriving DecidableEq, Repr

/-- Endpoint the in-memory directory makes for container `c`. -/
def memEndpoint (c : String) : Endpoint :=
  { ID := "ep-" ++ c, Sandbox := some { ContainerID := c }, Iface := none }

/-- The in-memory directory. Lookup by name is exact, lookup by id is by
leading characters, an empty name is rejected as invalid, a create without
driver fails, container lookup is by leading characters of the id and fails
when none or several match, a container attaches to a network once, and a
network with endpoints refuses deletion. -/
def memDaemon : Daemon MemState String where
  GetNetwork s name :=
    if name = "" then (none, some (.other "libnetwork.ErrInvalidName" "invalid name: "))
    else
      match s.networks.find? (fun n => n.Name = name) with
      | some n => (some n, none)
      | none => (none, some (.ErrNoSuchNetwork name))
  GetNetworksByID s id :=
    (s.networks.filter (fun n => id.data <+: n.ID.data)).map some
  FindNetwork s id :=
    match s.networks.find? (fun n => n.Name = id ∨ id.data <+: n.ID.data) with
    | some n => (some n, none)
    | none => (none, some (.ErrNoSuchNetwork id))
  CreateNetwork s name driver _ :=
    if driver = "" then ((none, some (.other "driverapi.ErrNoNetwork" "no driver given")), s)
    else
      let nw : Network :=
        { Name := name, ID := String.mk (List.replicate (s.networks.length + 1) 'f')
          Type' := driver, Endpoints := [] }
      ((some nw, none), { s with networks := s.networks ++ [nw] })
  Get s c :=
    match s.containers.filter (fun k => c.data <+: k.data) with
    | [k] => (some k, none)
    | [] => (none, some (.errorString ("no such id: " ++ c)))
    | _ => (none, some (.errorString "Multiple IDs found with provided prefix"))
  ConnectToNetwork s container name :=
    match container with
    | none => (some (.errorString "no container"), s)
    | some c =>
      if s.networks.any (fun n => n.Name = name ∧ memEndpoint c ∈ n.Endpoints) then
        (some (.errorString ("service endpoint with name " ++ c ++ " already exists")), s)
      else if s.networks.any (fun n => n.Name = name) then
        (none, { s with networks := s.networks.map (fun n =>
          if n.Name = name then { n with Endpoints := n.Endpoints ++ [memEndpoint c] } else n) })
      else (some (.ErrNoSuchNetwork name), s)
  DisconnectFromNetwork s container nw :=
    match container, nw with
    | some c, some n =>
      (none, { s with networks := s.networks.map (fun m =>
        if m.ID = n.ID then
          { m with Endpoints := m.Endpoints.filter (fun e => e.Sandbox ≠ some { ContainerID := c }) }
        else m) })
    | _, _ => (some (.errorString "nothing to detach"), s)
  Delete s nw :=
    if s.networks.any (fun n => n.ID = nw.ID ∧ n.Endpoints ≠ []) then
      (some (.other "libnetwork.ActiveEndpointsError"
        ("network with name " ++ nw.Name ++ " id " ++ nw.ID ++ " has active endpoints")), s)
    else (none, { s with networks := s.networks.filter (fun n => n.ID ≠ nw.ID) })
  formatContainer container :=
    match container with
    | none => "%!s(*daemon.Container=<nil>)"
    | some c => "&\x7b" ++ c ++ "\x7d"

/-- Hexadecimal digit of `n % 16`. -/
def hexDigit (n : Nat) : Char :=
  (['0', '1', '2', '3', '4', '5', '6', '7', '8', '9', 'a', 'b', 'c', 'd', 'e', 'f']).getD
    (n % 16) '0'

/-- Two hexadecimal digits of a byte. -/
def hexByte (b : Nat) : String := String.mk [hexDigit (b / 16), hexDigit b]

/-- Renderers for the in-memory runs: a hardware address as its bytes in
hexadecimal joined by colons, an address with mask as the bytes of the
address in hexadecimal joined by dots, a slash, and the bytes of the mask. -/
def memFmt : NetFmt where
  hardwareAddrString mac := String.intercalate ":" (mac.map hexByte)
  ipNetString n :=
    String.intercalate "." (n.IP.map hexByte) ++ "/" ++ String.join (n.Mask.map hexByte)

/-- Network `net1` of the sample state. -/
def net1 : Network := { Name := "net1", ID := "f", Type' := "bridge", Endpoints := [] }

/-- Sample state: one network `net1`, containers `7f01`, `7f02` and `c1`. -/
def mem1 : MemState := { networks := [net1], containers := ["7f01", "7f02", "c1"] }

/-- Network the in-memory directory creates second, when asked for the name
`net1` and driver `bridge`. -/
def net1dup : Network := { Name := "net1", ID := "ff", Type' := "bridge", Endpoints := [] }

/-- Sample state after that second create. -/
def mem2 : MemState := { networks := [net1, net1dup], containers := ["7f01", "7f02", "c1"] }

/-- Network the in-memory directory creates second, when asked for the name
`net2` and driver `bridge`. -/
def net2 : Network := { Name := "net2", ID := "ff", Type' := "bridge", Endpoints := [] }

/-- Sample state after attaching container `c1` to `net1`. -/
def mem1c : MemState :=
  { networks := [{ net1 with Endpoints := [memEndpoint "c1"] }]
    containers := ["7f01", "7f02", "c1"] }

/-- Sample state after creating `net2`. -/
def mem3 : MemState := { networks := [net1, net2], containers := ["7f01", "7f02", "c1"] }

/-- Go map index `v, ok := m[k]`: the value stored under `k`, if any. -/
def mapGet : ContainerMap → String → Option EndpointResource
  | [], _ => none
  | (k', v) :: m, k => if k' = k then some v else mapGet m k

/-- Keys of a Go map. -/
def mapKeys (m : ContainerMap) : List String := m.map Prod.fst

/-- The loop of `buildNetworkResource` over the endpoints `epl`, started on
the map `m`. -/
def fillContainers (f : NetFmt) (m : ContainerMap) (epl : List Endpoint) : ContainerMap :=
  epl.foldl
    (fun m e =>
      match e.Sandbox with
      | none => m
      | some sb => mapSet m sb.ContainerID (buildEndpointResource f (some e)))
    m

/-- Container ids of the sandboxes of the endpoints of a network that have a
sandbox, in the order of the endpoint list. -/
def sandboxContainerIDs (nw : Network) : List String :=
  nw.Endpoints.filterMap (fun e => e.Sandbox.map (fun sb => sb.ContainerID))

/-- Interface with hardware address and IPv4 address set and no IPv6 address. -/
def ifaceV4 : InterfaceInfo :=
  { MacAddress := some [2, 66, 172, 17, 0, 2]
    Address := { IP := [172, 17, 0, 2], Mask := [255, 255, 0, 0] }
    AddressIPv6 := { IP := [], Mask := [] } }

/-- Interface with nothing set but an IPv6 address. -/
def ifaceV6 : InterfaceInfo :=
  { MacAddress := none
    Address := { IP := [], Mask := [] }
    AddressIPv6 := { IP := [254, 128, 0, 0, 0, 0, 0, 0, 0, 0, 0, 0, 0, 0, 0, 2]
                     Mask := [255, 255, 255, 255, 255, 255, 255, 255] } }

/-- Endpoint `ep1`, in the sandbox of container `c1`. -/
def ep1 : Endpoint := { ID := "ep1", Sandbox := some { ContainerID := "c1" }, Iface := some ifaceV4 }

/-- Endpoint `ep2`, without sandbox. -/
def ep2 : Endpoint := { ID := "ep2", Sandbox := none, Iface := none }

/-- Endpoint `ep3`, in the sandbox of container `c2`. -/
def ep3 : Endpoint := { ID := "ep3", Sandbox := some { ContainerID := "c2" }, Iface := none }

/-- Endpoint `ep4`, a second endpoint in the sandbox of container `c1`. -/
def ep4 : Endpoint := { ID := "ep4", Sandbox := some { ContainerID := "c1" }, Iface := some ifaceV6 }

/-- Network `net3`, with the three endpoints `ep1`, `ep2` and `ep3`. -/
def net3 : Network :=
  { Name := "net3", ID := "a3", Type' := "bridge", Endpoints := [ep1, ep2, ep3] }

/-- Network `net4`, with the four endpoints `ep1`, `ep2`, `ep3` and `ep4`. -/
def net4 : Network :=
  { Name := "net4", ID := "a4", Type' := "bridge", Endpoints := [ep1, ep2, ep3, ep4] }

end NetworkRouter

/-!
# Mercurial URLs

Model of `pkg/urlutil/hg.go`. A Go string is the list of its bytes; the
functions only compare bytes and cut the list.
-/

namespace Urlutil

/-- Bytes of a string literal made of ASCII characters. -/
def bytes (s : String) : List Nat := s.data.map Char.toNat

/-- Go `strings.HasPrefix`: `len(s) >= len(p) && s[0:len(p)] == p`. -/
def HasPrefix (s p : List Nat) : Bool :=
  decide (s.length ≥ p.length) && (s.take p.length == p)

/-- Variable `validHgPrefixes`. -/
def validHgPrefixes : List (List Nat) := [bytes "hg::", bytes "ssh://"]

/-- Function `IsHgURL`: the loop returns `true` at the first listed marker
that `str` starts with, and `false` after the last. -/
def IsHgURL (str : List Nat) : Bool :=
  validHgPrefixes.any (fun p => HasPrefix str p)

/-- Function `CleanHgURL`; `str[4:]` is `str` without its first four bytes. -/
def CleanHgURL (str : List Nat) : List Nat :=
  if HasPrefix str (bytes "hg::") then str.drop 4 else str

end Urlutil

namespace NetworkRouter

/-! ## Create -/

/-- C1: with `checkDuplicate = true`, when the exact-name lookup of the
requested name returns an existing network, `postNetworkCreate` returns
`NetworkNameError(name)`, makes no state-changing call on the directory (no
`CreateNetwork`) and leaves the directory state as it was. -/
theorem postNetworkCreate_checked_duplicate {σ κ : Type} (d : Daemon σ κ) (s : σ)
    (name driver : String) (options : Options) (E : Network)
    (hfound : d.GetNetwork s name = (some E, none)) :
    postNetworkCreate d s ⟨name, driver, options, true⟩ =
      { result := .returned (some (.NetworkNameError name)), state := s, effects := [] } := by
  simp [postNetworkCreate, hfound]

/-- Witness of C1 on the in-memory directory: creating `net1` again. -/
theorem postNetworkCreate_checked_duplicate_witness :
    memDaemon.GetNetwork mem1 "net1" = (some net1, none) ∧
    postNetworkCreate memDaemon mem1 ⟨"net1", "bridge", [], true⟩ =
      { result := .returned (some (.NetworkNameError "net1")), state := mem1, effects := [] } :=
  ⟨by decide, postNetworkCreate_checked_duplicate memDaemon mem1 "net1" "bridge" [] net1 (by decide)⟩

/-- C2: with `checkDuplicate = false`, when the exact-name lookup returns an
existing network `E` and the directory creates network `N`, `postNetworkCreate`
answers with the id of `N` and a warning that is not empty and contains the
name and the id of `E`; the one state-changing call is that create, and in
the directory state afterwards `E` and `N` are two known networks with
different ids that both carry the requested name. -/
theorem postNetworkCreate_unchecked_duplicate {σ κ : Type} (d : Daemon σ κ) (s s' : σ)
    (name driver : String) (options : Options) (E N : Network)
    (hdir : DirectoryContractAt d s name driver options)
    (hfound : d.GetNetwork s name = (some E, none))
    (hcreate : d.CreateNetwork s name driver options = ((some N, none), s')) :
    ∃ warning : String,
      postNetworkCreate d s ⟨name, driver, options, false⟩ =
        { result := .wroteJSON StatusCreated { ID := N.ID, Warning := warning }
          state := s', effects := [.createNetwork name driver options] } ∧
      warning = "Network with name " ++ E.Name ++ " (id : " ++ E.ID ++ ") already exists" ∧
      warning ≠ "" ∧ Contains warning E.Name ∧ Contains warning E.ID ∧
      some E ∈ d.GetNetworksByID s' "" ∧ some N ∈ d.GetNetworksByID s' "" ∧
      E.ID ≠ N.ID ∧ E.Name = name ∧ N.Name = name := by
  obtain ⟨hEname, hEknown⟩ := hdir.lookup_exact E none hfound
  obtain ⟨hNname, hNknown, hrest⟩ := hdir.create_fresh N s' hcreate
  obtain ⟨hne, hEafter⟩ := hrest E hEknown
  refine ⟨_, ?_, rfl, ?_, ?_, ?_, hEafter, hNknown, hne, hEname, hNname⟩
  · simp [postNetworkCreate, hfound, hcreate]
  · intro h
    have hlen := congrArg String.length h
    simp only [String.length_append] at hlen
    have h18 : "Network with name ".length = 18 := by decide
    rw [h18] at hlen
    have h0 : ("" : String).length = 0 := rfl
    omega
  · exact ⟨"Network with name ".data, (" (id : " ++ E.ID ++ ") already exists").data, by
      simp [String.data_append]⟩
  · exact ⟨("Network with name " ++ E.Name ++ " (id : ").data, ") already exists".data, by
      simp [String.data_append]⟩

/-- The in-memory directory meets the directory contract at the sample state
for a second network named `net1`. -/
theorem memDaemon_contract_mem1 : DirectoryContractAt memDaemon mem1 "net1" "bridge" [] := by
  have hget : memDaemon.GetNetwork mem1 "net1" = (some net1, none) := by decide
  have hcr : memDaemon.CreateNetwork mem1 "net1" "bridge" [] = ((some net1dup, none), mem2) := by
    decide
  refine ⟨?_, ?_⟩
  · intro E e h
    rw [hget] at h
    obtain rfl : net1 = E := by simpa using congrArg (fun p => p.1) h
    exact ⟨by decide, by decide⟩
  · intro N s' h
    rw [hcr] at h
    obtain rfl : net1dup = N := by simpa using congrArg (fun p => p.1.1) h
    obtain rfl : mem2 = s' := congrArg (fun p => p.2) h
    refine ⟨by decide, by decide, ?_⟩
    intro M hM
    have hM' : M = net1 := by
      have : memDaemon.GetNetworksByID mem1 "" = [some net1] := by decide
      rw [this] at hM
      simpa using hM
    subst hM'
    exact ⟨by decide, by decide⟩

/-- Witness of C2 on the in-memory directory: a second `net1` is created next
to the first. -/
theorem postNetworkCreate_unchecked_duplicate_witness :
    ∃ warning : String,
      postNetworkCreate memDaemon mem1 ⟨"net1", "bridge", [], false⟩ =
        { result := .wroteJSON StatusCreated { ID := net1dup.ID, Warning := warning }
          state := mem2, effects := [.createNetwork "net1" "bridge" []] } ∧
      warning = "Network with name " ++ net1.Name ++ " (id : " ++ net1.ID ++ ") already exists" ∧
      warning ≠ "" ∧ Contains warning net1.Name ∧ Contains warning net1.ID ∧
      some net1 ∈ memDaemon.GetNetworksByID mem2 "" ∧
      some net1dup ∈ memDaemon.GetNetworksByID mem2 "" ∧
      net1.ID ≠ net1dup.ID ∧ net1.Name = "net1" ∧ net1dup.Name = "net1" :=
  postNetworkCreate_unchecked_duplicate memDaemon mem1 mem2 "net1" "bridge" [] net1 net1dup
    memDaemon_contract_mem1 (by decide) (by decide)

/-- C3: when the exact-name lookup finds no network (it returns no network,
and no error or one of kind `ErrNoSuchNetwork`) and
`CreateNetwork(name, driver, options)` succeeds with network `N`,
`postNetworkCreate` answers exactly `{ID = N.ID(), Warning = ""}`, whatever
`checkDuplicate` is; the one state-changing call is that create. -/
theorem postNetworkCreate_fresh_name {σ κ : Type} (d : Daemon σ κ) (s s' : σ)
    (name driver : String) (options : Options) (checkDuplicate : Bool) (N : Network)
    (hnone : (d.GetNetwork s name).1 = none)
    (hkind : ∀ e, (d.GetNetwork s name).2 = some e → e.isErrNoSuchNetwork = true)
    (hcreate : d.CreateNetwork s name driver options = ((some N, none), s')) :
    postNetworkCreate d s ⟨name, driver, options, checkDuplicate⟩ =
      { result := .wroteJSON StatusCreated { ID := N.ID, Warning := "" }
        state := s', effects := [.createNetwork name driver options] } := by
  cases herr : (d.GetNetwork s name).2 with
  | none => simp [postNetworkCreate, hnone, herr, hcreate]
  | some e => simp [postNetworkCreate, hnone, herr, hkind e herr, hcreate]

/-- Witness of C3 on the in-memory directory: creating `net2`, with the
duplicate check on. -/
theorem postNetworkCreate_fresh_name_witness :
    memDaemon.GetNetwork mem1 "net2" = (none, some (.ErrNoSuchNetwork "net2")) ∧
    postNetworkCreate memDaemon mem1 ⟨"net2", "bridge", [], true⟩ =
      { result := .wroteJSON StatusCreated { ID := "ff", Warning := "" }
        state := mem3, effects := [.createNetwork "net2" "bridge" []] } :=
  ⟨by decide, postNetworkCreate_fresh_name memDaemon mem1 mem3 "net2" "bridge" [] true net2
    (by decide) (by decide) (by decide)⟩

/-- C4: in `postNetworkCreate`, (1) a lookup error of kind `ErrNoSuchNetwork`
is not the handler's result, unless `CreateNetwork` was invoked and itself
returned that error; (2) when the lookup found nothing and failed with that
kind, creation proceeds: the handler invokes `CreateNetwork` with the
request's name, driver and options and succeeds whenever that call does;
(3) a lookup error of any other kind is returned unchanged, with no
state-changing call and the directory state as it was; (4) when the handler
invoked `CreateNetwork` and that call failed, its error is returned unchanged
in place of a response. -/
theorem postNetworkCreate_error_propagation {σ κ : Type} (d : Daemon σ κ) (s : σ)
    (create : NetworkCreate) :
    (∀ e, (d.GetNetwork s create.Name).2 = some e → e.isErrNoSuchNetwork = true →
      (postNetworkCreate d s create).result ≠ .returned (some e) ∨
        ((postNetworkCreate d s create).effects =
            [.createNetwork create.Name create.Driver create.Options] ∧
          (d.CreateNetwork s create.Name create.Driver create.Options).1.2 = some e)) ∧
    (∀ e, d.GetNetwork s create.Name = (none, some e) → e.isErrNoSuchNetwork = true →
      (postNetworkCreate d s create).effects =
          [.createNetwork create.Name create.Driver create.Options] ∧
        (postNetworkCreate d s create).state =
          (d.CreateNetwork s create.Name create.Driver create.Options).2 ∧
        ∀ N, (d.CreateNetwork s create.Name create.Driver create.Options).1 = (some N, none) →
          (postNetworkCreate d s create).result =
            .wroteJSON StatusCreated { ID := N.ID, Warning := "" }) ∧
    (∀ e, (d.GetNetwork s create.Name).2 = some e → e.isErrNoSuchNetwork = false →
      postNetworkCreate d s create = { result := .returned (some e), state := s, effects := [] }) ∧
    (∀ nw e, (d.CreateNetwork s create.Name create.Driver create.Options).1 = (nw, some e) →
      (postNetworkCreate d s create).effects =
          [.createNetwork create.Name create.Driver create.Options] →
        (postNetworkCreate d s create).result = .returned (some e)) := by
  rcases hc : d.CreateNetwork s create.Name create.Driver create.Options with ⟨⟨nw', err'⟩, s'⟩
  rcases hl : d.GetNetwork s create.Name with ⟨nw, err⟩
  refine ⟨?_, ?_, ?_, ?_⟩
  · intro e he hk
    simp only at he
    subst he
    have hname : GoError.NetworkNameError create.Name ≠ e := by
      intro h
      rw [← h] at hk
      simp [GoError.isErrNoSuchNetwork] at hk
    by_cases hres : (postNetworkCreate d s create).result = .returned (some e)
    · refine Or.inr ?_
      revert hres
      rw [← hc]
      cases nw <;> cases nw' <;> cases err' <;> cases hdup : create.CheckDuplicate <;>
        simp [postNetworkCreate, hl, hc, hk, hdup, hname]
    · exact Or.inl hres
  · intro e he hk
    obtain ⟨rfl, rfl⟩ : nw = none ∧ err = some e := by simpa using he
    cases nw' <;> cases err' <;> simp [postNetworkCreate, hl, hc, hk]
  · intro e he hk
    simp only at he
    subst he
    simp [postNetworkCreate, hl, hk]
  · intro nw0 e he
    obtain ⟨rfl, rfl⟩ : nw' = nw0 ∧ err' = some e := by simpa using he
    cases err with
    | none =>
      cases nw <;> cases hdup : create.CheckDuplicate <;>
        simp [postNetworkCreate, hl, hc, hdup]
    | some e0 =>
      cases hk : e0.isErrNoSuchNetwork <;> cases nw <;> cases hdup : create.CheckDuplicate <;>
        simp [postNetworkCreate, hl, hc, hk, hdup]

/-- Witness of C4 on the in-memory directory: creating `net2` (the lookup
fails with `ErrNoSuchNetwork` and the network is created), creating a network
with the empty name (the lookup's error comes back), and creating `net2`
without a driver (the create call's error comes back). -/
theorem postNetworkCreate_error_propagation_witness :
    (memDaemon.GetNetwork mem1 "net2" = (none, some (.ErrNoSuchNetwork "net2")) ∧
      (postNetworkCreate memDaemon mem1 ⟨"net2", "bridge", [], false⟩).effects =
        [.createNetwork "net2" "bridge" []] ∧
      (postNetworkCreate memDaemon mem1 ⟨"net2", "bridge", [], false⟩).result =
        .wroteJSON StatusCreated { ID := "ff", Warning := "" } ∧
      ((postNetworkCreate memDaemon mem1 ⟨"net2", "bridge", [], false⟩).result ≠
          .returned (some (.ErrNoSuchNetwork "net2")) ∨
        ((postNetworkCreate memDaemon mem1 ⟨"net2", "bridge", [], false⟩).effects =
            [.createNetwork "net2" "bridge" []] ∧
          (memDaemon.CreateNetwork mem1 "net2" "bridge" []).1.2 =
            some (.ErrNoSuchNetwork "net2")))) ∧
    (memDaemon.GetNetwork mem1 "" =
        (none, some (.other "libnetwork.ErrInvalidName" "invalid name: ")) ∧
      postNetworkCreate memDaemon mem1 ⟨"", "bridge", [], false⟩ =
        { result := .returned (some (.other "libnetwork.ErrInvalidName" "invalid name: "))
          state := mem1, effects := [] }) ∧
    ((memDaemon.CreateNetwork mem1 "net2" "" []).1 =
        (none, some (.other "driverapi.ErrNoNetwork" "no driver given")) ∧
      (postNetworkCreate memDaemon mem1 ⟨"net2", "", [], false⟩).result =
        .returned (some (.other "driverapi.ErrNoNetwork" "no driver given"))) :=
  ⟨⟨by decide,
      ((postNetworkCreate_error_propagation memDaemon mem1 ⟨"net2", "bridge", [], false⟩).2.1
        (.ErrNoSuchNetwork "net2") (by decide) (by decide)).1,
      ((postNetworkCreate_error_propagation memDaemon mem1 ⟨"net2", "bridge", [], false⟩).2.1
        (.ErrNoSuchNetwork "net2") (by decide) (by decide)).2.2 net2 (by decide),
      (postNetworkCreate_error_propagation memDaemon mem1 ⟨"net2", "bridge", [], false⟩).1
        (.ErrNoSuchNetwork "net2") (by decide) (by decide)⟩,
    ⟨by decide,
      (postNetworkCreate_error_propagation memDaemon mem1 ⟨"", "bridge", [], false⟩).2.2.1
        (.other "libnetwork.ErrInvalidName" "invalid name: ") (by decide) (by decide)⟩,
    ⟨by decide,
      (postNetworkCreate_error_propagation memDaemon mem1 ⟨"net2", "", [], false⟩).2.2.2
        none (.other "driverapi.ErrNoNetwork" "no driver given") (by decide) (by decide)⟩⟩

/-! ## List -/

/-- The loop over the listed names appends the name resolution. -/
theorem foldl_names_eq {σ κ : Type} (f : NetFmt) (d : Daemon σ κ) (s : σ) (names : List String)
    (acc : List NetworkResource) :
    names.foldl
        (fun list name =>
          match d.GetNetwork s name with
          | (nw, none) => list ++ [buildNetworkResource f nw]
          | (_, some _) => list)
        acc = acc ++ nameMatches f d s names := by
  induction names generalizing acc with
  | nil => simp [nameMatches]
  | cons name rest ih =>
    rw [List.foldl_cons, ih]
    rcases h : d.GetNetwork s name with ⟨nw, err⟩
    cases err <;> simp [nameMatches, h]

/-- The loop over one id's networks appends their built resources. -/
theorem foldl_networks_eq (f : NetFmt) (nws : List (Option Network))
    (acc : List NetworkResource) :
    nws.foldl (fun list nw => list ++ [buildNetworkResource f nw]) acc =
      acc ++ nws.map (buildNetworkResource f) := by
  induction nws generalizing acc with
  | nil => simp
  | cons nw rest ih => rw [List.foldl_cons, ih]; simp

/-- The loop over the listed ids appends the id resolution. -/
theorem foldl_ids_eq {σ κ : Type} (f : NetFmt) (d : Daemon σ κ) (s : σ) (ids : List String)
    (acc : List NetworkResource) :
    ids.foldl
        (fun list id =>
          (d.GetNetworksByID s id).foldl (fun list nw => list ++ [buildNetworkResource f nw]) list)
        acc = acc ++ idMatches f d s ids := by
  induction ids generalizing acc with
  | nil => simp [idMatches]
  | cons id rest ih =>
    rw [List.foldl_cons, ih, foldl_networks_eq]
    simp [idMatches]

/-- The loop over the listed ids, its inner loop written as a map. -/
theorem foldl_ids_map_eq {σ κ : Type} (f : NetFmt) (d : Daemon σ κ) (s : σ)
    (ids : List String) (acc : List NetworkResource) :
    ids.foldl (fun list id => list ++ (d.GetNetworksByID s id).map (buildNetworkResource f)) acc =
      acc ++ idMatches f d s ids := by
  rw [← foldl_ids_eq]
  simp only [foldl_networks_eq]

/-- What `getNetworksList` writes, for every parsed filter map. -/
theorem getNetworksList_eq {σ κ : Type} (f : NetFmt) (d : Daemon σ κ) (s : σ)
    (netFilters : Args) :
    getNetworksList f d s netFilters = .wroteJSON StatusOK
      (match netFilters.lookup "name", netFilters.lookup "id" with
        | some names, some ids => nameMatches f d s names ++ idMatches f d s ids
        | some names, none => nameMatches f d s names
        | none, some ids => idMatches f d s ids
        | none, none => (d.GetNetworksByID s "").map (buildNetworkResource f)) := by
  unfold getNetworksList
  cases netFilters.lookup "name" <;> cases netFilters.lookup "id" <;>
    simp [foldl_names_eq, foldl_ids_map_eq, foldl_networks_eq]

/-- C5: with both a `name` filter and an `id` filter, `getNetworksList`
writes the name resolution followed by the id resolution, each in listed
order; nothing is intersected or removed, so every resource occurs as often
as in the two resolutions together, and the resource of a network matched
once by the listed names and once by the listed ids occurs exactly twice. -/
theorem getNetworksList_name_and_id {σ κ : Type} (f : NetFmt) (d : Daemon σ κ) (s : σ)
    (netFilters : Args) (names ids : List String)
    (hname : netFilters.lookup "name" = some names)
    (hid : netFilters.lookup "id" = some ids) :
    getNetworksList f d s netFilters =
        .wroteJSON StatusOK (nameMatches f d s names ++ idMatches f d s ids) ∧
      (∀ r, (nameMatches f d s names ++ idMatches f d s ids).count r =
        (nameMatches f d s names).count r + (idMatches f d s ids).count r) ∧
      (∀ A : Network,
        (nameMatches f d s names).count (buildNetworkResource f (some A)) = 1 →
        (idMatches f d s ids).count (buildNetworkResource f (some A)) = 1 →
        (nameMatches f d s names ++ idMatches f d s ids).count
          (buildNetworkResource f (some A)) = 2) := by
  refine ⟨?_, ?_, ?_⟩
  · rw [getNetworksList_eq, hname, hid]
  · intro r
    exact List.count_append r _ _
  · intro A h1 h2
    rw [List.count_append, h1, h2]

/-- Witness of C5 on the in-memory directory: `net1` asked for by name and by
id is listed twice. -/
theorem getNetworksList_name_and_id_witness :
    getNetworksList memFmt memDaemon mem1 [("name", ["net1"]), ("id", ["f"])] =
        .wroteJSON StatusOK [buildNetworkResource memFmt (some net1),
          buildNetworkResource memFmt (some net1)] ∧
      (nameMatches memFmt memDaemon mem1 ["net1"] ++ idMatches memFmt memDaemon mem1 ["f"]).count
        (buildNetworkResource memFmt (some net1)) = 2 :=
  ⟨(getNetworksList_name_and_id memFmt memDaemon mem1 [("name", ["net1"]), ("id", ["f"])]
      ["net1"] ["f"] (by decide) (by decide)).1,
    (getNetworksList_name_and_id memFmt memDaemon mem1 [("name", ["net1"]), ("id", ["f"])]
      ["net1"] ["f"] (by decide) (by decide)).2.2 net1 (by decide) (by decide)⟩

/-- C6: when the parsed filter map has neither a `name` key nor an `id` key,
whatever other keys it has, `getNetworksList` writes one built resource per
network of `GetNetworksByID("")`, in the directory's order. -/
theorem getNetworksList_no_filter {σ κ : Type} (f : NetFmt) (d : Daemon σ κ) (s : σ)
    (netFilters : Args)
    (hname : netFilters.lookup "name" = none)
    (hid : netFilters.lookup "id" = none) :
    getNetworksList f d s netFilters =
        .wroteJSON StatusOK ((d.GetNetworksByID s "").map (buildNetworkResource f)) ∧
      ((d.GetNetworksByID s "").map (buildNetworkResource f)).length =
        (d.GetNetworksByID s "").length := by
  refine ⟨?_, List.length_map _ _⟩
  rw [getNetworksList_eq, hname, hid]

/-- Witness of C6 on the in-memory directory: a filter map with only the key
`driver` lists both networks of the directory. -/
theorem getNetworksList_no_filter_witness :
    getNetworksList memFmt memDaemon mem3 [("driver", ["bridge"])] =
      .wroteJSON StatusOK [buildNetworkResource memFmt (some net1),
        buildNetworkResource memFmt (some net2)] :=
  (getNetworksList_no_filter memFmt memDaemon mem3 [("driver", ["bridge"])]
    (by decide) (by decide)).1

/-- C7: with a `name` filter, `getNetworksList` always writes a list (it
returns no error), which starts with the name resolution and goes on with the
id resolution when an `id` filter is present; the name resolution has as many
entries as there are listed names whose lookup succeeds, a listed name whose
lookup fails adds nothing to it, and it is empty when every lookup fails. -/
theorem getNetworksList_name_best_effort {σ κ : Type} (f : NetFmt) (d : Daemon σ κ) (s : σ)
    (netFilters : Args) (names : List String)
    (hname : netFilters.lookup "name" = some names) :
    getNetworksList f d s netFilters = .wroteJSON StatusOK
        (nameMatches f d s names ++
          (match netFilters.lookup "id" with
            | some ids => idMatches f d s ids
            | none => [])) ∧
      (nameMatches f d s names).length =
        names.countP (fun name => (d.GetNetwork s name).2 = none) ∧
      (∀ pre name post, names = pre ++ name :: post → (d.GetNetwork s name).2 ≠ none →
        nameMatches f d s names = nameMatches f d s pre ++ nameMatches f d s post) ∧
      ((∀ name ∈ names, (d.GetNetwork s name).2 ≠ none) → nameMatches f d s names = []) := by
  refine ⟨?_, ?_, ?_, ?_⟩
  · rw [getNetworksList_eq, hname]
    cases netFilters.lookup "id" <;> simp
  · clear hname
    induction names with
    | nil => simp [nameMatches]
    | cons name rest ih =>
      unfold nameMatches at ih ⊢
      by_cases h : (d.GetNetwork s name).2 = none
      · simp [List.filterMap_cons, h, ih]
      · simp [List.filterMap_cons, h, ih]
  · intro pre name post hsplit hfail
    subst hsplit
    simp [nameMatches, List.filterMap_append, List.filterMap_cons, hfail]
  · intro hall
    unfold nameMatches
    rw [List.filterMap_eq_nil_iff]
    intro name hmem
    simp [hall name hmem]

/-- Witness of C7 on the in-memory directory: of the listed names `nope`,
`net1` and `gone`, only `net1` is known, and the list has its one resource;
with only unknown names the list is empty. -/
theorem getNetworksList_name_best_effort_witness :
    getNetworksList memFmt memDaemon mem1 [("name", ["nope", "net1", "gone"])] =
        .wroteJSON StatusOK [buildNetworkResource memFmt (some net1)] ∧
      getNetworksList memFmt memDaemon mem1 [("name", ["nope", "gone"])] =
        .wroteJSON StatusOK [] ∧
      nameMatches memFmt memDaemon mem1 ["nope", "gone"] = [] :=
  ⟨(getNetworksList_name_best_effort memFmt memDaemon mem1 [("name", ["nope", "net1", "gone"])]
      ["nope", "net1", "gone"] (by decide)).1,
    (getNetworksList_name_best_effort memFmt memDaemon mem1 [("name", ["nope", "gone"])]
      ["nope", "gone"] (by decide)).1,
    (getNetworksList_name_best_effort memFmt memDaemon mem1 [("name", ["nope", "gone"])]
      ["nope", "gone"] (by decide)).2.2.2 (by decide)⟩

/-! ## Connect and disconnect -/

set_option maxRecDepth 20000

/-- What `postNetworkConnect` returns when the network resolves and the
container lookup fails: the text is built from the container value the
lookup returned and from the cause, and the identifier of the request is not
an argument of it. -/
theorem postNetworkConnect_container_lookup_failed {σ κ : Type} (d : Daemon σ κ) (s : σ)
    (id : String) (connect : NetworkConnect) (nw : Option Network) (container : Option κ)
    (err : GoError)
    (hnet : d.FindNetwork s id = (nw, none))
    (hctr : d.Get s connect.Container = (container, some err)) :
    postNetworkConnect d s id connect =
      { result := .returned (some (.errorString
          ("invalid container " ++ d.formatContainer container ++ " : " ++ err.Error)))
        state := s, effects := [] } := by
  simp [postNetworkConnect, hnet, hctr]

/-- What `postNetworkDisconnect` returns when the network resolves and the
container lookup fails: the same text as in `postNetworkConnect`, and no
detach. -/
theorem postNetworkDisconnect_container_lookup_failed {σ κ : Type} (d : Daemon σ κ) (s : σ)
    (id : String) (disconnect : NetworkDisconnect) (nw : Option Network)
    (container : Option κ) (err : GoError)
    (hnet : d.FindNetwork s id = (nw, none))
    (hctr : d.Get s disconnect.Container = (container, some err)) :
    postNetworkDisconnect d s id disconnect =
      { result := .returned (some (.errorString
          ("invalid container " ++ d.formatContainer container ++ " : " ++ err.Error)))
        state := s, effects := [] } := by
  simp [postNetworkDisconnect, hnet, hctr]

/-- C8, on the in-memory directory: network `net1` resolves, the container
identifier `7f` does not (two containers start with it), and the error of
`postNetworkConnect` carries the cause but, in place of the identifier `7f`,
the print of the nil container the lookup returned. -/
theorem postNetworkConnect_message_lacks_identifier :
    memDaemon.FindNetwork mem1 "net1" = (some net1, none) ∧
    memDaemon.Get mem1 "7f" =
      (none, some (.errorString "Multiple IDs found with provided prefix")) ∧
    postNetworkConnect memDaemon mem1 "net1" ⟨"7f"⟩ =
      { result := .returned (some (.errorString
          "invalid container %!s(*daemon.Container=<nil>) : Multiple IDs found with provided prefix"))
        state := mem1, effects := [] } ∧
    Contains
      "invalid container %!s(*daemon.Container=<nil>) : Multiple IDs found with provided prefix"
      "Multiple IDs found with provided prefix" ∧
    ¬ Contains
      "invalid container %!s(*daemon.Container=<nil>) : Multiple IDs found with provided prefix"
      "7f" := by
  refine ⟨by decide, by decide, ?_, ?_, by decide⟩
  · exact postNetworkConnect_container_lookup_failed memDaemon mem1 "net1" ⟨"7f"⟩ (some net1) none
      (.errorString "Multiple IDs found with provided prefix") (by decide) (by decide)
  · exact ⟨"invalid container %!s(*daemon.Container=<nil>) : ".data, [], by decide⟩

/-- C9, on the in-memory directory: network `net1` resolves, the container
identifier `7f` does not, and `postNetworkDisconnect` makes no detach call
and returns an error that carries the cause but, in place of the identifier
`7f`, the print of the nil container the lookup returned. -/
theorem postNetworkDisconnect_message_lacks_identifier :
    memDaemon.FindNetwork mem1 "net1" = (some net1, none) ∧
    memDaemon.Get mem1 "7f" =
      (none, some (.errorString "Multiple IDs found with provided prefix")) ∧
    postNetworkDisconnect memDaemon mem1 "net1" ⟨"7f"⟩ =
      { result := .returned (some (.errorString
          "invalid container %!s(*daemon.Container=<nil>) : Multiple IDs found with provided prefix"))
        state := mem1, effects := [] } ∧
    Contains
      "invalid container %!s(*daemon.Container=<nil>) : Multiple IDs found with provided prefix"
      "Multiple IDs found with provided prefix" ∧
    ¬ Contains
      "invalid container %!s(*daemon.Container=<nil>) : Multiple IDs found with provided prefix"
      "7f" := by
  refine ⟨by decide, by decide, ?_, ?_, by decide⟩
  · exact postNetworkDisconnect_container_lookup_failed memDaemon mem1 "net1" ⟨"7f"⟩ (some net1) none
      (.errorString "Multiple IDs found with provided prefix") (by decide) (by decide)
  · exact ⟨"invalid container %!s(*daemon.Container=<nil>) : ".data, [], by decide⟩

/-- C10: when the network identifier resolves to network `N` and the container
identifier to container `C`, `postNetworkConnect` makes one state-changing
call, `C.ConnectToNetwork(N.Name())`, and returns what that call returns,
error or `nil`; the directory state afterwards is the one that call leaves. -/
theorem postNetworkConnect_attaches_by_name {σ κ : Type} (d : Daemon σ κ) (s : σ)
    (id : String) (connect : NetworkConnect) (N : Network) (C : κ)
    (hnet : d.FindNetwork s id = (some N, none))
    (hctr : d.Get s connect.Container = (some C, none)) :
    postNetworkConnect d s id connect =
      { result := .returned (d.ConnectToNetwork s (some C) N.Name).1
        state := (d.ConnectToNetwork s (some C) N.Name).2
        effects := [.connectToNetwork (some C) N.Name] } := by
  simp [postNetworkConnect, hnet, hctr]

/-- Witness of C10 on the in-memory directory: the request names the network
by its id `f` and the handler attaches container `c1` to the name `net1`;
asked again, it returns the error of the attach call as it is. -/
theorem postNetworkConnect_attaches_by_name_witness :
    memDaemon.FindNetwork mem1 "f" = (some net1, none) ∧
    memDaemon.Get mem1 "c1" = (some "c1", none) ∧
    memDaemon.ConnectToNetwork mem1 (some "c1") "net1" = (none, mem1c) ∧
    postNetworkConnect memDaemon mem1 "f" ⟨"c1"⟩ =
      { result := .returned none, state := mem1c
        effects := [.connectToNetwork (some "c1") "net1"] } ∧
    postNetworkConnect memDaemon mem1c "f" ⟨"c1"⟩ =
      { result := .returned (some (.errorString "service endpoint with name c1 already exists"))
        state := mem1c, effects := [.connectToNetwork (some "c1") "net1"] } :=
  ⟨by decide, by decide, by decide,
    postNetworkConnect_attaches_by_name memDaemon mem1 "f" ⟨"c1"⟩ net1 "c1"
      (by decide) (by decide),
    postNetworkConnect_attaches_by_name memDaemon mem1c "f" ⟨"c1"⟩
      { net1 with Endpoints := [memEndpoint "c1"] } "c1" (by decide) (by decide)⟩

/-! ## Resource builders -/

/-- C12: for a network `N` with an empty endpoint list, the `Containers` of
`buildNetworkResource(N)` is a map without entries (made, not `nil`), and
`ID`, `Name` and `Driver` are `N.ID()`, `N.Name()` and `N.Type()`. -/
theorem buildNetworkResource_no_endpoints (f : NetFmt) (N : Network)
    (hempty : N.Endpoints = []) :
    (buildNetworkResource f (some N)).Containers = some [] ∧
      (buildNetworkResource f (some N)).ID = N.ID ∧
      (buildNetworkResource f (some N)).Name = N.Name ∧
      (buildNetworkResource f (some N)).Driver = N.Type' := by
  simp [buildNetworkResource, hempty]

/-- Witness of C12: the resource of `net1`, which has no endpoint. -/
theorem buildNetworkResource_no_endpoints_witness :
    net1.Endpoints = [] ∧
      (buildNetworkResource memFmt (some net1)).Containers = some [] ∧
      (buildNetworkResource memFmt (some net1)).ID = "f" ∧
      (buildNetworkResource memFmt (some net1)).Name = "net1" ∧
      (buildNetworkResource memFmt (some net1)).Driver = "bridge" :=
  ⟨rfl, buildNetworkResource_no_endpoints memFmt net1 rfl⟩

/-- C13: `buildNetworkResource(nil)` is the zero `NetworkResource` (empty
name, id and driver, `nil` map) and `buildEndpointResource(nil)` is the zero
`EndpointResource` (four empty fields), whatever the renderers are: both are
total and read nothing of their argument. -/
theorem build_nil_is_zero (f : NetFmt) :
    buildNetworkResource f none = { Name := "", ID := "", Driver := "", Containers := none } ∧
      buildEndpointResource f none =
        { EndpointID := "", MacAddress := "", IPv4Address := "", IPv6Address := "" } :=
  ⟨rfl, rfl⟩

/-- C14: for an endpoint whose interface is present and whose IPv6 address
has an `IP` of length 0, the `IPv6Address` of `buildEndpointResource` is
empty, whatever the hardware address and the IPv4 address are. -/
theorem buildEndpointResource_ipv6_unset (f : NetFmt) (E : Endpoint) (iface : InterfaceInfo)
    (hiface : E.Iface = some iface) (hunset : iface.AddressIPv6.IP.length = 0) :
    (buildEndpointResource f (some E)).IPv6Address = "" := by
  simp [buildEndpointResource, hiface, hunset]

/-- Witness of C14: endpoint `ep1` has a hardware address and an IPv4 address
and no IPv6 address. -/
theorem buildEndpointResource_ipv6_unset_witness :
    ep1.Iface = some ifaceV4 ∧ ifaceV4.AddressIPv6.IP.length = 0 ∧
      (buildEndpointResource memFmt (some ep1)).IPv6Address = "" ∧
      (buildEndpointResource memFmt (some ep1)).IPv4Address ≠ "" :=
  ⟨rfl, rfl, buildEndpointResource_ipv6_unset memFmt ep1 ifaceV4 rfl rfl, by decide⟩

/-- C15: for an endpoint `E`, the `EndpointID` of `buildEndpointResource(E)`
is `E.ID()`; without interface the three address fields are empty; with an
interface, `MacAddress` is the string of the hardware address when that is
not `nil` and empty otherwise, and `IPv4Address` and `IPv6Address` are the
string of the respective address when its `IP` has a length other than 0 and
empty otherwise. Each field depends on its own source only: two endpoints
with interfaces that agree on one of the three sources agree on that field. -/
theorem buildEndpointResource_fields (f : NetFmt) (E : Endpoint) :
    (buildEndpointResource f (some E)).EndpointID = E.ID ∧
    (E.Iface = none →
      (buildEndpointResource f (some E)).MacAddress = "" ∧
      (buildEndpointResource f (some E)).IPv4Address = "" ∧
      (buildEndpointResource f (some E)).IPv6Address = "") ∧
    (∀ iface, E.Iface = some iface →
      (∀ mac, iface.MacAddress = some mac →
        (buildEndpointResource f (some E)).MacAddress = f.hardwareAddrString mac) ∧
      (iface.MacAddress = none → (buildEndpointResource f (some E)).MacAddress = "") ∧
      (iface.Address.IP.length ≠ 0 →
        (buildEndpointResource f (some E)).IPv4Address = f.ipNetString iface.Address) ∧
      (iface.Address.IP.length = 0 → (buildEndpointResource f (some E)).IPv4Address = "") ∧
      (iface.AddressIPv6.IP.length ≠ 0 →
        (buildEndpointResource f (some E)).IPv6Address = f.ipNetString iface.AddressIPv6) ∧
      (iface.AddressIPv6.IP.length = 0 →
        (buildEndpointResource f (some E)).IPv6Address = "")) ∧
    (∀ (E' : Endpoint) (iface iface' : InterfaceInfo),
      E.Iface = some iface → E'.Iface = some iface' →
      (iface.MacAddress = iface'.MacAddress →
        (buildEndpointResource f (some E)).MacAddress =
          (buildEndpointResource f (some E')).MacAddress) ∧
      (iface.Address = iface'.Address →
        (buildEndpointResource f (some E)).IPv4Address =
          (buildEndpointResource f (some E')).IPv4Address) ∧
      (iface.AddressIPv6 = iface'.AddressIPv6 →
        (buildEndpointResource f (some E)).IPv6Address =
          (buildEndpointResource f (some E')).IPv6Address)) := by
  refine ⟨?_, ?_, ?_, ?_⟩
  · cases h : E.Iface <;> simp [buildEndpointResource, h]
  · intro h
    simp [buildEndpointResource, h]
  · intro iface h
    refine ⟨?_, ?_, ?_, ?_, ?_, ?_⟩
    · intro mac hmac
      simp [buildEndpointResource, h, hmac]
    · intro hmac
      simp [buildEndpointResource, h, hmac]
    · intro hlen
      simp [buildEndpointResource, h, Nat.pos_of_ne_zero hlen]
    · intro hlen
      simp [buildEndpointResource, h, hlen]
    · intro hlen
      simp [buildEndpointResource, h, Nat.pos_of_ne_zero hlen]
    · intro hlen
      simp [buildEndpointResource, h, hlen]
  · intro E' iface iface' h h'
    refine ⟨?_, ?_, ?_⟩ <;> intro heq <;> simp [buildEndpointResource, h, h', heq]

/-- Witness of C15 with the in-memory renderers: `ep1` (hardware address and
IPv4 address set), `ep4` (only the IPv6 address set) and `ep2` (no
interface). -/
theorem buildEndpointResource_fields_witness :
    (buildEndpointResource memFmt (some ep1)).MacAddress = "02:42:ac:11:00:02" ∧
      (buildEndpointResource memFmt (some ep1)).IPv4Address = "ac.11.00.02/ffff0000" ∧
      (buildEndpointResource memFmt (some ep1)).IPv6Address = "" ∧
      (buildEndpointResource memFmt (some ep4)).MacAddress = "" ∧
      (buildEndpointResource memFmt (some ep4)).IPv4Address = "" ∧
      (buildEndpointResource memFmt (some ep4)).IPv6Address =
        memFmt.ipNetString ifaceV6.AddressIPv6 ∧
      ((buildEndpointResource memFmt (some ep2)).MacAddress = "" ∧
        (buildEndpointResource memFmt (some ep2)).IPv4Address = "" ∧
        (buildEndpointResource memFmt (some ep2)).IPv6Address = "") ∧
      (buildEndpointResource memFmt (some ep1)).IPv6Address =
        (buildEndpointResource memFmt (some { ep3 with Iface := some ifaceV4 })).IPv6Address :=
  ⟨((buildEndpointResource_fields memFmt ep1).2.2.1 ifaceV4 rfl).1 _ rfl,
    ((buildEndpointResource_fields memFmt ep1).2.2.1 ifaceV4 rfl).2.2.1 (by decide),
    ((buildEndpointResource_fields memFmt ep1).2.2.1 ifaceV4 rfl).2.2.2.2.2 rfl,
    ((buildEndpointResource_fields memFmt ep4).2.2.1 ifaceV6 rfl).2.1 rfl,
    ((buildEndpointResource_fields memFmt ep4).2.2.1 ifaceV6 rfl).2.2.2.1 rfl,
    ((buildEndpointResource_fields memFmt ep4).2.2.1 ifaceV6 rfl).2.2.2.2.1 (by decide),
    (buildEndpointResource_fields memFmt ep2).2.1 rfl,
    ((buildEndpointResource_fields memFmt ep1).2.2.2 { ep3 with Iface := some ifaceV4 }
      ifaceV4 ifaceV4 rfl rfl).2.2 rfl⟩

/-- Keys after a map assignment: the key is added at the end unless present. -/
theorem mapKeys_mapSet (m : ContainerMap) (k : String) (v : EndpointResource) :
    mapKeys (mapSet m k v) = if k ∈ mapKeys m then mapKeys m else mapKeys m ++ [k] := by
  induction m with
  | nil => simp [mapSet, mapKeys]
  | cons kv m ih =>
    obtain ⟨k', v'⟩ := kv
    simp only [mapKeys] at ih
    by_cases h : k' = k
    · simp [mapSet, mapKeys, h]
    · have h' : ¬ k = k' := fun e => h e.symm
      by_cases hm : k ∈ List.map Prod.fst m
      · simp [mapSet, mapKeys, h, h', hm, ih]
      · simp [mapSet, mapKeys, h, h', hm, ih]

/-- Size after a map assignment. -/
theorem length_mapSet (m : ContainerMap) (k : String) (v : EndpointResource) :
    (mapSet m k v).length = if k ∈ mapKeys m then m.length else m.length + 1 := by
  have h := congrArg List.length (mapKeys_mapSet m k v)
  by_cases hk : k ∈ mapKeys m
  · rw [if_pos hk] at h ⊢
    simpa [mapKeys] using h
  · rw [if_neg hk] at h ⊢
    simpa [mapKeys] using h

/-- Reading a map after an assignment. -/
theorem mapGet_mapSet (m : ContainerMap) (k c : String) (v : EndpointResource) :
    mapGet (mapSet m k v) c = if k = c then some v else mapGet m c := by
  induction m with
  | nil => simp [mapSet, mapGet]
  | cons kv m ih =>
    obtain ⟨k', v'⟩ := kv
    by_cases h : k' = k
    · subst h
      by_cases hc : k' = c <;> simp [mapSet, mapGet, hc]
    · by_cases hc : k' = c
      · subst hc
        have h' : ¬ k = k' := fun e => h e.symm
        simp [mapSet, mapGet, h, h']
      · simp [mapSet, mapGet, h, hc, ih]

/-- The loop of `buildNetworkResource` skips an endpoint without sandbox. -/
theorem fillContainers_cons_none (f : NetFmt) (m : ContainerMap) (e : Endpoint)
    (epl : List Endpoint) (h : e.Sandbox = none) :
    fillContainers f m (e :: epl) = fillContainers f m epl := by
  simp [fillContainers, h]

/-- The loop of `buildNetworkResource` assigns the resource of an endpoint
with a sandbox under the container id of the sandbox. -/
theorem fillContainers_cons_some (f : NetFmt) (m : ContainerMap) (e : Endpoint)
    (epl : List Endpoint) (sb : Sandbox) (h : e.Sandbox = some sb) :
    fillContainers f m (e :: epl) =
      fillContainers f (mapSet m sb.ContainerID (buildEndpointResource f (some e))) epl := by
  simp [fillContainers, h]

/-- The loop of `buildNetworkResource` over two lists in a row. -/
theorem fillContainers_append (f : NetFmt) (m : ContainerMap) (pre post : List Endpoint) :
    fillContainers f m (pre ++ post) = fillContainers f (fillContainers f m pre) post := by
  simp [fillContainers, List.foldl_append]

/-- What `buildNetworkResource` puts in `Containers`. -/
theorem buildNetworkResource_containers (f : NetFmt) (N : Network) :
    (buildNetworkResource f (some N)).Containers = some (fillContainers f [] N.Endpoints) :=
  rfl

/-- Keys after the loop of `buildNetworkResource`: those of the starting map
and the container ids of the sandboxes met. -/
theorem mem_mapKeys_fillContainers (f : NetFmt) (m : ContainerMap) (epl : List Endpoint)
    (k : String) :
    k ∈ mapKeys (fillContainers f m epl) ↔
      k ∈ mapKeys m ∨ k ∈ epl.filterMap (fun e => e.Sandbox.map (fun sb => sb.ContainerID)) := by
  induction epl generalizing m with
  | nil => simp [fillContainers]
  | cons e epl ih =>
    cases h : e.Sandbox with
    | none => rw [fillContainers_cons_none f m e epl h, ih, List.filterMap_cons]; simp [h]
    | some sb =>
      rw [fillContainers_cons_some f m e epl sb h, ih, mapKeys_mapSet, List.filterMap_cons]
      by_cases hk : sb.ContainerID ∈ mapKeys m
      · simp only [hk, if_true, h, Option.map_some', List.mem_cons]
        constructor
        · rintro (h1 | h1)
          · exact Or.inl h1
          · exact Or.inr (Or.inr h1)
        · rintro (h1 | h1 | h1)
          · exact Or.inl h1
          · exact Or.inl (h1 ▸ hk)
          · exact Or.inr h1
      · simp only [hk, if_false, h, Option.map_some', List.mem_cons, List.mem_append,
          List.mem_singleton]
        tauto

/-- The loop of `buildNetworkResource` keeps the keys of the map distinct. -/
theorem nodup_mapKeys_fillContainers (f : NetFmt) (m : ContainerMap) (epl : List Endpoint)
    (hm : (mapKeys m).Nodup) : (mapKeys (fillContainers f m epl)).Nodup := by
  induction epl generalizing m with
  | nil => simpa [fillContainers] using hm
  | cons e epl ih =>
    cases h : e.Sandbox with
    | none => rw [fillContainers_cons_none f m e epl h]; exact ih m hm
    | some sb =>
      rw [fillContainers_cons_some f m e epl sb h]
      apply ih
      rw [mapKeys_mapSet]
      by_cases hk : sb.ContainerID ∈ mapKeys m
      · simpa [hk] using hm
      · simp only [hk, if_false]
        rw [List.nodup_append]
        refine ⟨hm, List.nodup_singleton _, ?_⟩
        intro a ha hb
        rw [List.mem_singleton] at hb
        exact hk (hb ▸ ha)

/-- Size after the loop of `buildNetworkResource`: at most one more entry per
sandbox met, and exactly that when the container ids met are pairwise
distinct and none is a key of the starting map. -/
theorem length_fillContainers (f : NetFmt) (m : ContainerMap) (epl : List Endpoint) :
    (fillContainers f m epl).length ≤
        m.length + (epl.filterMap (fun e => e.Sandbox.map (fun sb => sb.ContainerID))).length ∧
      ((fillContainers f m epl).length =
          m.length + (epl.filterMap (fun e => e.Sandbox.map (fun sb => sb.ContainerID))).length ↔
        (epl.filterMap (fun e => e.Sandbox.map (fun sb => sb.ContainerID))).Nodup ∧
          ∀ k ∈ epl.filterMap (fun e => e.Sandbox.map (fun sb => sb.ContainerID)),
            k ∉ mapKeys m) := by
  induction epl generalizing m with
  | nil => simp [fillContainers]
  | cons e epl ih =>
    cases h : e.Sandbox with
    | none =>
      rw [fillContainers_cons_none f m e epl h, List.filterMap_cons]
      simpa [h] using ih m
    | some sb =>
      rw [fillContainers_cons_some f m e epl sb h, List.filterMap_cons]
      simp only [h, Option.map_some', List.length_cons, List.nodup_cons, List.mem_cons,
        forall_eq_or_imp]
      obtain ⟨hle, heq⟩ := ih (mapSet m sb.ContainerID (buildEndpointResource f (some e)))
      rw [length_mapSet] at hle heq
      by_cases hk : sb.ContainerID ∈ mapKeys m
      · rw [if_pos hk] at hle heq
        refine ⟨by omega, ?_⟩
        constructor
        · intro hlen
          omega
        · rintro ⟨_, hnot, _⟩
          exact absurd hk hnot
      · rw [if_neg hk] at hle heq
        refine ⟨by omega, ?_⟩
        have hkeys : ∀ k, k ∈ mapKeys (mapSet m sb.ContainerID (buildEndpointResource f (some e)))
            ↔ k ∈ mapKeys m ∨ k = sb.ContainerID := by
          intro k
          rw [mapKeys_mapSet, if_neg hk]
          simp
        constructor
        · intro hlen
          have h1 := heq.mp (by omega)
          refine ⟨⟨?_, h1.1⟩, hk, ?_⟩
          · intro hmem
            exact (h1.2 _ hmem) ((hkeys _).mpr (Or.inr rfl))
          · intro k hmem hkm
            exact (h1.2 k hmem) ((hkeys _).mpr (Or.inl hkm))
        · rintro ⟨⟨hnotin, hnd⟩, _, hall⟩
          have h1 := heq.mpr ⟨hnd, by
            intro k hmem hkm
            rcases (hkeys k).mp hkm with hkm | hkm
            · exact hall k hmem hkm
            · exact hnotin (hkm ▸ hmem)⟩
          omega

/-- Reading a key after the loop of `buildNetworkResource` over endpoints
none of which has a sandbox with that container id. -/
theorem mapGet_fillContainers_of_not_mem (f : NetFmt) (m : ContainerMap)
    (epl : List Endpoint) (c : String)
    (hc : ∀ e ∈ epl, ∀ sb, e.Sandbox = some sb → sb.ContainerID ≠ c) :
    mapGet (fillContainers f m epl) c = mapGet m c := by
  induction epl generalizing m with
  | nil => simp [fillContainers]
  | cons e epl ih =>
    have hrest : ∀ e' ∈ epl, ∀ sb, e'.Sandbox = some sb → sb.ContainerID ≠ c :=
      fun e' he' => hc e' (List.mem_cons_of_mem _ he')
    cases h : e.Sandbox with
    | none => rw [fillContainers_cons_none f m e epl h]; exact ih m hrest
    | some sb =>
      rw [fillContainers_cons_some f m e epl sb h, ih _ hrest, mapGet_mapSet,
        if_neg (hc e (List.mem_cons_self _ _) sb h)]

/-- As many endpoints have a sandbox as there are container ids of sandboxes. -/
theorem length_sandboxContainerIDs (N : Network) :
    (sandboxContainerIDs N).length = (N.Endpoints.filter (fun e => e.Sandbox.isSome)).length := by
  unfold sandboxContainerIDs
  induction N.Endpoints with
  | nil => simp
  | cons e epl ih =>
    cases h : e.Sandbox <;> simp [List.filterMap_cons, List.filter_cons, h, ih]

/-- C11: for a network `N`, the `Containers` of `buildNetworkResource(N)` is
the map filled by the loop over the endpoints of `N`; its keys are pairwise
distinct and are exactly the container ids of the sandboxes of the endpoints
of `N` that have a sandbox: every such endpoint has its container id as a
key, and an endpoint without sandbox adds nothing (the resource is the one
built without that endpoint). -/
theorem buildNetworkResource_container_keys (f : NetFmt) (N : Network) :
    (buildNetworkResource f (some N)).Containers = some (fillContainers f [] N.Endpoints) ∧
    (mapKeys (fillContainers f [] N.Endpoints)).Nodup ∧
    (∀ k, k ∈ mapKeys (fillContainers f [] N.Endpoints) ↔
      ∃ e ∈ N.Endpoints, ∃ sb, e.Sandbox = some sb ∧ sb.ContainerID = k) ∧
    (∀ e ∈ N.Endpoints, ∀ sb, e.Sandbox = some sb →
      sb.ContainerID ∈ mapKeys (fillContainers f [] N.Endpoints)) ∧
    (∀ pre e post, N.Endpoints = pre ++ e :: post → e.Sandbox = none →
      buildNetworkResource f (some N) =
        buildNetworkResource f (some { N with Endpoints := pre ++ post })) := by
  have hkeys : ∀ k, k ∈ mapKeys (fillContainers f [] N.Endpoints) ↔
      ∃ e ∈ N.Endpoints, ∃ sb, e.Sandbox = some sb ∧ sb.ContainerID = k := by
    intro k
    rw [mem_mapKeys_fillContainers]
    simp only [mapKeys, List.map_nil, List.not_mem_nil, false_or, List.mem_filterMap,
      Option.map_eq_some']
  refine ⟨rfl, ?_, hkeys, ?_, ?_⟩
  · exact nodup_mapKeys_fillContainers f [] N.Endpoints (by simp [mapKeys])
  · intro e he sb hsb
    exact (hkeys _).mpr ⟨e, he, sb, hsb, rfl⟩
  · intro pre e post hsplit hnone
    have hfill : fillContainers f [] (pre ++ e :: post) = fillContainers f [] (pre ++ post) := by
      rw [fillContainers_append, fillContainers_cons_none f _ e post hnone,
        ← fillContainers_append]
    simp only [buildNetworkResource, hsplit]
    exact congrArg (fun m => NetworkResource.mk N.Name N.ID N.Type' (some m)) hfill

/-- Witness of C11: in `net3` the endpoints `ep1` and `ep3` have the sandboxes
of containers `c1` and `c2`, and `ep2` has none. -/
theorem buildNetworkResource_container_keys_witness :
    (buildNetworkResource memFmt (some net3)).Containers =
        some [("c1", buildEndpointResource memFmt (some ep1)),
          ("c2", buildEndpointResource memFmt (some ep3))] ∧
      "c2" ∈ mapKeys (fillContainers memFmt [] net3.Endpoints) ∧
      buildNetworkResource memFmt (some net3) =
        buildNetworkResource memFmt (some { net3 with Endpoints := [ep1] ++ [ep3] }) :=
  ⟨(buildNetworkResource_container_keys memFmt net3).1,
    (buildNetworkResource_container_keys memFmt net3).2.2.2.1 ep3 (by decide) _ rfl,
    (buildNetworkResource_container_keys memFmt net3).2.2.2.2 [ep1] ep2 [ep3] rfl rfl⟩

/-- C19: for a network `N`, the map in `Containers` of `buildNetworkResource(N)`
has pairwise distinct keys and at most as many entries as `N` has endpoints
with a sandbox, and exactly as many if and only if the container ids of
those sandboxes are pairwise distinct; the entry under a container id is the
resource of the last endpoint of the list whose sandbox has that id. -/
theorem buildNetworkResource_container_count (f : NetFmt) (N : Network) :
    (buildNetworkResource f (some N)).Containers = some (fillContainers f [] N.Endpoints) ∧
    (mapKeys (fillContainers f [] N.Endpoints)).Nodup ∧
    (fillContainers f [] N.Endpoints).length ≤
      (N.Endpoints.filter (fun e => e.Sandbox.isSome)).length ∧
    ((fillContainers f [] N.Endpoints).length =
        (N.Endpoints.filter (fun e => e.Sandbox.isSome)).length ↔
      (sandboxContainerIDs N).Nodup) ∧
    (∀ pre e post sb, N.Endpoints = pre ++ e :: post → e.Sandbox = some sb →
      (∀ e' ∈ post, ∀ sb', e'.Sandbox = some sb' → sb'.ContainerID ≠ sb.ContainerID) →
      mapGet (fillContainers f [] N.Endpoints) sb.ContainerID =
        some (buildEndpointResource f (some e))) := by
  obtain ⟨hle, heq⟩ := length_fillContainers f [] N.Endpoints
  have hlen := length_sandboxContainerIDs N
  unfold sandboxContainerIDs at hlen
  refine ⟨rfl, ?_, ?_, ?_, ?_⟩
  · exact nodup_mapKeys_fillContainers f [] N.Endpoints (by simp [mapKeys])
  · simpa [hlen] using hle
  · rw [← hlen]
    unfold sandboxContainerIDs
    simpa [mapKeys] using heq
  · intro pre e post sb hsplit hsb hlast
    rw [hsplit, fillContainers_append, fillContainers_cons_some f _ e post sb hsb,
      mapGet_fillContainers_of_not_mem f _ post sb.ContainerID hlast, mapGet_mapSet]
    simp

/-- Witness of C19: `net4` has three endpoints with a sandbox, two of them
(`ep1` and `ep4`) in the sandbox of `c1`; the map has two entries and the one
of `c1` is the resource of `ep4`, the later of the two. -/
theorem buildNetworkResource_container_count_witness :
    (buildNetworkResource memFmt (some net4)).Containers =
        some [("c1", buildEndpointResource memFmt (some ep4)),
          ("c2", buildEndpointResource memFmt (some ep3))] ∧
      ¬ (fillContainers memFmt [] net4.Endpoints).length =
        (net4.Endpoints.filter (fun e => e.Sandbox.isSome)).length ∧
      (fillContainers memFmt [] net3.Endpoints).length =
        (net3.Endpoints.filter (fun e => e.Sandbox.isSome)).length ∧
      mapGet (fillContainers memFmt [] net4.Endpoints) "c1" =
        some (buildEndpointResource memFmt (some ep4)) :=
  ⟨(buildNetworkResource_container_count memFmt net4).1,
    fun h => absurd ((buildNetworkResource_container_count memFmt net4).2.2.2.1.mp h)
      (by decide),
    (buildNetworkResource_container_count memFmt net3).2.2.2.1.mpr (by decide),
    (buildNetworkResource_container_count memFmt net4).2.2.2.2 [ep1, ep2, ep3] ep4 [] _ rfl rfl
      (by simp)⟩

/-! ## Delete -/

/-- C16: when the lookup of the identifier fails, `deleteNetwork` returns the
lookup's error as it is, makes no state-changing call (no `Delete`) and
leaves the directory state as it was; when the identifier resolves to
network `N`, it makes the one call `N.Delete()` and returns what that call
returns, error or `nil`, the directory state being the one that call
leaves. -/
theorem deleteNetwork_delegates {σ κ : Type} (d : Daemon σ κ) (s : σ) (id : String) :
    (∀ nw err, d.FindNetwork s id = (nw, some err) →
      deleteNetwork d s id = { result := .returned (some err), state := s, effects := [] }) ∧
    (∀ N, d.FindNetwork s id = (some N, none) →
      deleteNetwork d s id =
        { result := .returned (d.Delete s N).1
          state := (d.Delete s N).2
          effects := [.delete N] }) := by
  refine ⟨?_, ?_⟩
  · intro nw err h
    simp [deleteNetwork, h]
  · intro N h
    simp [deleteNetwork, h]

/-- Witness of C16 on the in-memory directory: deleting the unknown `nope`
returns the not-found error; deleting `net1` while container `c1` is attached
returns the directory's rejection as it is and the network stays; deleting
`net1` without endpoints removes it. -/
theorem deleteNetwork_delegates_witness :
    deleteNetwork memDaemon mem1c "nope" =
        { result := .returned (some (.ErrNoSuchNetwork "nope")), state := mem1c, effects := [] } ∧
      deleteNetwork memDaemon mem1c "net1" =
        { result := .returned (some (.other "libnetwork.ActiveEndpointsError"
            "network with name net1 id f has active endpoints"))
          state := mem1c
          effects := [.delete { net1 with Endpoints := [memEndpoint "c1"] }] } ∧
      deleteNetwork memDaemon mem1 "net1" =
        { result := .returned none
          state := { networks := [], containers := ["7f01", "7f02", "c1"] }
          effects := [.delete net1] } :=
  ⟨(deleteNetwork_delegates memDaemon mem1c "nope").1 none (.ErrNoSuchNetwork "nope")
      (by decide),
    (deleteNetwork_delegates memDaemon mem1c "net1").2
      { net1 with Endpoints := [memEndpoint "c1"] } (by decide),
    (deleteNetwork_delegates memDaemon mem1 "net1").2 net1 (by decide)⟩

/-! ## List, with filters that match nothing -/

/-- C18: when the parsed filter map has a `name` key or an `id` key, every
listed name fails its lookup and every listed id resolves to no network
(which includes a key with an empty value list), `getNetworksList` writes the
empty list, whatever networks `GetNetworksByID("")` would yield. -/
theorem getNetworksList_no_fallback {σ κ : Type} (f : NetFmt) (d : Daemon σ κ) (s : σ)
    (netFilters : Args)
    (hkey : netFilters.lookup "name" ≠ none ∨ netFilters.lookup "id" ≠ none)
    (hnames : ∀ names, netFilters.lookup "name" = some names →
      ∀ name ∈ names, (d.GetNetwork s name).2 ≠ none)
    (hids : ∀ ids, netFilters.lookup "id" = some ids →
      ∀ id ∈ ids, d.GetNetworksByID s id = []) :
    getNetworksList f d s netFilters = .wroteJSON StatusOK [] := by
  have hn : ∀ names, netFilters.lookup "name" = some names → nameMatches f d s names = [] := by
    intro names h
    unfold nameMatches
    rw [List.filterMap_eq_nil_iff]
    intro name hmem
    simp [hnames names h name hmem]
  have hi : ∀ ids, netFilters.lookup "id" = some ids → idMatches f d s ids = [] := by
    intro ids h
    unfold idMatches
    rw [List.flatten_eq_nil_iff]
    intro l hl
    obtain ⟨id, hid, rfl⟩ := List.mem_map.mp hl
    simp [hids ids h id hid]
  rw [getNetworksList_eq]
  cases h1 : netFilters.lookup "name" with
  | none =>
    cases h2 : netFilters.lookup "id" with
    | none => simp [h1, h2] at hkey
    | some ids => simp [hi ids h2]
  | some names =>
    cases h2 : netFilters.lookup "id" with
    | none => simp [hn names h1]
    | some ids => simp [hn names h1, hi ids h2]

/-- Witness of C18 on the in-memory directory, which holds `net1`: a `name`
key without values, and an unknown name with an unknown id, both list
nothing. -/
theorem getNetworksList_no_fallback_witness :
    memDaemon.GetNetworksByID mem1 "" = [some net1] ∧
      getNetworksList memFmt memDaemon mem1 [("name", [])] = .wroteJSON StatusOK [] ∧
      getNetworksList memFmt memDaemon mem1 [("name", ["nope"]), ("id", ["zz"])] =
        .wroteJSON StatusOK [] :=
  ⟨by decide,
    getNetworksList_no_fallback memFmt memDaemon mem1 [("name", [])]
      (Or.inl (by decide)) (by decide) (by decide),
    getNetworksList_no_fallback memFmt memDaemon mem1 [("name", ["nope"]), ("id", ["zz"])]
      (Or.inl (by decide)) (by decide) (by decide)⟩

end NetworkRouter

namespace Urlutil

/-! ## Mercurial URLs -/

/-- Go `strings.HasPrefix` holds exactly when `s` is `p` followed by some
bytes. -/
theorem HasPrefix_iff (s p : List Nat) : HasPrefix s p = true ↔ p <+: s := by
  unfold HasPrefix
  rw [Bool.and_eq_true, decide_eq_true_eq, beq_iff_eq]
  constructor
  · rintro ⟨_, htake⟩
    exact List.prefix_iff_eq_take.mpr htake.symm
  · intro h
    exact ⟨h.length_le, (List.prefix_iff_eq_take.mp h).symm⟩

/-- The marker `hg::` is four bytes long. -/
theorem length_hg_marker : (bytes "hg::").length = 4 := by decide

/-- C17: `IsHgURL(s)` is true if and only if `s` starts with `hg::` or with
`ssh://`; it is false of the empty string, of `http://host/repo` and of
`hg@host`. -/
theorem IsHgURL_iff (s : List Nat) :
    (IsHgURL s = true ↔ bytes "hg::" <+: s ∨ bytes "ssh://" <+: s) ∧
      IsHgURL [] = false ∧
      IsHgURL (bytes "http://host/repo") = false ∧
      IsHgURL (bytes "hg@host") = false := by
  refine ⟨?_, by decide, by decide, by decide⟩
  simp only [IsHgURL, validHgPrefixes, List.any_cons, List.any_nil, Bool.or_false,
    Bool.or_eq_true, HasPrefix_iff]

/-- C20: if `s` starts with `hg::`, `CleanHgURL(s)` is `s` without its first
four bytes, so that `hg::` followed by it is `s`; otherwise it is `s`. Only
one marker is removed: cleaning twice gives the same as cleaning once if and
only if `CleanHgURL(s)` does not itself start with `hg::`. -/
theorem CleanHgURL_spec (s : List Nat) :
    (bytes "hg::" <+: s → bytes "hg::" ++ CleanHgURL s = s ∧ CleanHgURL s = s.drop 4) ∧
      (¬ bytes "hg::" <+: s → CleanHgURL s = s) ∧
      (CleanHgURL (CleanHgURL s) = CleanHgURL s ↔ ¬ bytes "hg::" <+: CleanHgURL s) := by
  have hclean : ∀ t : List Nat, bytes "hg::" <+: t →
      bytes "hg::" ++ CleanHgURL t = t ∧ CleanHgURL t = t.drop 4 := by
    intro t h
    have hc : CleanHgURL t = t.drop 4 := by
      simp [CleanHgURL, (HasPrefix_iff t (bytes "hg::")).mpr h]
    refine ⟨?_, hc⟩
    obtain ⟨rest, rfl⟩ := h
    rw [hc, ← length_hg_marker, List.drop_left]
  have hkeep : ∀ t : List Nat, ¬ bytes "hg::" <+: t → CleanHgURL t = t := by
    intro t h
    have hp : HasPrefix t (bytes "hg::") = false := by
      rw [← Bool.not_eq_true, HasPrefix_iff]
      exact h
    simp [CleanHgURL, hp]
  refine ⟨hclean s, hkeep s, ?_⟩
  constructor
  · intro heq hpre
    have h := congrArg List.length (hclean (CleanHgURL s) hpre).1
    rw [heq, List.length_append, length_hg_marker] at h
    omega
  · exact hkeep (CleanHgURL s)

/-- Witness of C20: `hg::hg::x` is cleaned to `hg::x`, which cleaned again is
`x`; `hg::x` is cleaned to `x`, which stays; `ssh://x` is left as it is. -/
theorem CleanHgURL_spec_witness :
    CleanHgURL (bytes "hg::hg::x") = bytes "hg::x" ∧
      ¬ CleanHgURL (CleanHgURL (bytes "hg::hg::x")) = CleanHgURL (bytes "hg::hg::x") ∧
      CleanHgURL (CleanHgURL (bytes "hg::x")) = CleanHgURL (bytes "hg::x") ∧
      CleanHgURL (bytes "ssh://x") = bytes "ssh://x" :=
  ⟨((CleanHgURL_spec (bytes "hg::hg::x")).1 (by decide)).2,
    fun h => absurd ((CleanHgURL_spec (bytes "hg::hg::x")).2.2.mp h) (by decide),
    (CleanHgURL_spec (bytes "hg::x")).2.2.mpr (by decide),
    (CleanHgURL_spec (bytes "ssh://x")).2.1 (by decide)⟩

end Urlutil
